import Mathlib

/-!
Shallow embedding of the dexbackend service (src/app.py): the fetch → filter →
persist → respond pipeline of the Flask app, modelled as total Lean functions.
Python exceptions are modelled with `Except`; pandas numeric cells (float or
NaN) are modelled by `PNum`; JSON field values by `JVal`; the upstream HTTP
response and the database write outcome are explicit parameters of the
request handler.
-/

namespace DexBackend

/-- A JSON scalar value as it may appear in an upstream listing field:
`null`, a number, or a string. -/
inductive JVal where
  | null : JVal
  | num (q : ℚ) : JVal
  | str (s : String) : JVal
deriving DecidableEq, Repr

/-- The nested sub-object stored under a listing's `liquidity` or `volume`
key: either JSON `null` (Python `None`) or a dict given as an association
list of fields.  Python truthiness: `None` and the empty dict are falsy. -/
inductive SubObj where
  | null : SubObj
  | dict (fields : List (String × JVal)) : SubObj
deriving DecidableEq, Repr

/-- One listing object of the upstream `pairs` list.  Each field is `none`
when the corresponding key is absent from that object's JSON dict.
`pairCreatedAt` stands for an upstream-supplied timestamp field, which the
pipeline never reads. -/
structure Listing where
  pairAddress : Option JVal
  priceUsd : Option JVal
  liquidity : Option SubObj
  volume : Option SubObj
  pairCreatedAt : Option JVal
deriving DecidableEq, Repr

/-- A pandas numeric cell after `pd.to_numeric(..., errors="coerce")`:
either a number or the NaN sentinel. -/
inductive PNum where
  | nan : PNum
  | num (q : ℚ) : PNum
deriving DecidableEq, Repr

/-- Numeric value of a digit list, most significant first. -/
def charsToNat (cs : List Char) : Nat :=
  cs.foldl (fun a c => a * 10 + (c.toNat - 48)) 0

/-- All characters are decimal digits. -/
def allDigits (cs : List Char) : Bool :=
  cs.all (fun c => c.isDigit)

/-- Parse an unsigned decimal literal (`"12"`, `"1.5"`, `".5"`, `"1."`). -/
def parseUnsignedDec (cs : List Char) : Option ℚ :=
  match cs.splitOn '.' with
  | [ip] =>
      if ip.isEmpty then none
      else if allDigits ip then some ((charsToNat ip : ℚ)) else none
  | [ip, fp] =>
      if ip.isEmpty && fp.isEmpty then none
      else if allDigits ip && allDigits fp then
        some ((charsToNat ip : ℚ) + (charsToNat fp : ℚ) / ((10 : ℚ) ^ fp.length))
      else none
  | _ => none

/-- Numeric parse of a string, as `pd.to_numeric` performs on string cells:
an optional sign followed by a decimal literal; anything else fails. -/
def parseDecimal (s : String) : Option ℚ :=
  match s.toList with
  | [] => none
  | '-' :: rest => (parseUnsignedDec rest).map (fun q => -q)
  | '+' :: rest => parseUnsignedDec rest
  | cs => parseUnsignedDec cs

/-- Coercion `pd.to_numeric(v, errors="coerce")` on a single cell: numbers pass
through, parsable strings are parsed, everything else becomes NaN. -/
def toNumericVal : JVal → PNum
  | JVal.null => PNum.nan
  | JVal.num q => PNum.num q
  | JVal.str s =>
      match parseDecimal s with
      | some q => PNum.num q
      | none => PNum.nan

/-- The lambda `x.get(key, 0) if x else 0` of app.py lines 60-61: falsy
cells (`None`, empty dict) give `0`, otherwise the dict is read with
default `0`. -/
def getWithDefault (key : String) : SubObj → JVal
  | SubObj.null => JVal.num 0
  | SubObj.dict fields =>
      if fields.isEmpty then JVal.num 0
      else
        match fields.lookup key with
        | some v => v
        | none => JVal.num 0

/-- The pandas comparison `cell > t`: false whenever the cell is NaN. -/
def pnumGt (x : PNum) (t : ℚ) : Bool :=
  match x with
  | PNum.nan => false
  | PNum.num q => decide (t < q)

/-- The coerced `price` cell of a listing (app.py line 59): a missing
`priceUsd` cell is the NaN filler, which `to_numeric` keeps as NaN. -/
def priceVal (l : Listing) : PNum :=
  match l.priceUsd with
  | some v => toNumericVal v
  | none => PNum.nan

/-- The coerced nested cell of a listing's `liquidity`/`volume` column
(app.py lines 60-61).  A `none` cell (key absent in this object while the
column exists) is the float-NaN filler; the lambda would raise on it, which
`filter_data` below detects before this value is ever used. -/
def subVal (key : String) : Option SubObj → PNum
  | some so => toNumericVal (getWithDefault key so)
  | none => PNum.nan

/-- A Python exception, by the class the handler dispatches on. -/
inductive PyError where
  | requestException : PyError
  | valueError (msg : String) : PyError
  | keyError (key : String) : PyError
  | attributeError : PyError
  | dbError (msg : String) : PyError
deriving DecidableEq, Repr

/-- One output/persisted row: the projection of app.py line 66. -/
structure Row where
  pairAddress : Option JVal
  price : PNum
  liquidity : PNum
  volume : PNum
  created_at : Nat
deriving DecidableEq, Repr

/-- The row built from a listing by `filter_data`: coerced price, nested
liquidity and volume, and `created_at` stamped with the processing time
`now` (app.py lines 59-62, 66). -/
def mkRow (now : Nat) (l : Listing) : Row :=
  { pairAddress := l.pairAddress
    price := priceVal l
    liquidity := subVal "usd" l.liquidity
    volume := subVal "h24" l.volume
    created_at := now }

/-- Embeds `filter_data` (app.py lines 55-66).  A DataFrame column exists iff some
listing has the key; accessing a missing column raises `KeyError`.  When a
column exists but a cell is missing, pandas fills the cell with float NaN,
which is truthy, so the `.get` lambda raises `AttributeError` (detected in
source order: priceUsd, liquidity, volume).  Survivors are the rows with
`liquidity > 5000`; the final projection raises `KeyError` when no listing
has `pairAddress`. -/
def filter_data (raw : List Listing) (now : Nat) : Except PyError (List Row) :=
  if !(raw.any fun l => l.priceUsd.isSome) then
    Except.error (PyError.keyError "priceUsd")
  else if !(raw.any fun l => l.liquidity.isSome) then
    Except.error (PyError.keyError "liquidity")
  else if raw.any fun l => l.liquidity.isNone then
    Except.error PyError.attributeError
  else if !(raw.any fun l => l.volume.isSome) then
    Except.error (PyError.keyError "volume")
  else if raw.any fun l => l.volume.isNone then
    Except.error PyError.attributeError
  else
    let survivors := (raw.map (mkRow now)).filter fun r => pnumGt r.liquidity 5000
    if !(raw.any fun l => l.pairAddress.isSome) then
      Except.error (PyError.keyError "pairAddress")
    else
      Except.ok survivors

/-- The upstream HTTP response seen by `fetch_data_from_dex`: a status code
and the decoded top-level `pairs` field (`none` when absent). -/
structure UpstreamResponse where
  status : Nat
  pairs : Option (List Listing)

/-- Embeds `fetch_data_from_dex` (app.py lines 45-52): `raise_for_status` raises a
`RequestException` subclass for any 4xx/5xx status; then a falsy
`data.get("pairs")` (absent key or empty list) raises `ValueError`. -/
def fetch_data_from_dex (resp : UpstreamResponse) : Except PyError (List Listing) :=
  if 400 ≤ resp.status ∧ resp.status < 600 then
    Except.error PyError.requestException
  else
    match resp.pairs with
    | none => Except.error (PyError.valueError "No data available for Solana tokens.")
    | some [] => Except.error (PyError.valueError "No data available for Solana tokens.")
    | some ps => Except.ok ps

/-- The body of an HTTP response from the service: a JSON array of rows or
a JSON error object. -/
inductive RespBody where
  | rows (rs : List Row) : RespBody
  | errObj (msg : String) : RespBody
deriving DecidableEq, Repr

/-- An HTTP response of the service. -/
structure HttpResp where
  status : Nat
  body : RespBody
deriving DecidableEq, Repr

/-- The message chosen by the except clauses of `get_tokens` (app.py lines
89-97): `RequestException` and `ValueError` get their dedicated messages,
every other exception falls to the generic handler. -/
def errorMessageFor : PyError → String
  | PyError.requestException => "Failed to fetch data from DEX Screener API."
  | PyError.valueError _ => "No valid data available for Solana tokens."
  | _ => "An unexpected error occurred."

/-- The `/tokens` handler `get_tokens` (app.py lines 80-97).  `dbFail`
models `save_to_database`: `some msg` means the database write raises an
exception carrying `msg` (an SQLAlchemy error, neither a RequestException
nor a ValueError). -/
def get_tokens (resp : UpstreamResponse) (now : Nat) (dbFail : Option String) : HttpResp :=
  match fetch_data_from_dex resp with
  | Except.error e => { status := 500, body := RespBody.errObj (errorMessageFor e) }
  | Except.ok raw =>
      match filter_data raw now with
      | Except.error e => { status := 500, body := RespBody.errObj (errorMessageFor e) }
      | Except.ok rows =>
          match dbFail with
          | some m => { status := 500, body := RespBody.errObj (errorMessageFor (PyError.dbError m)) }
          | none => { status := 200, body := RespBody.rows rows }

/-- The registered Flask routes of app.py: path pattern and method.
Only `/tokens` (line 80) and the health route `/` (line 100) exist. -/
def routePatterns : List (String × String) :=
  [("/tokens", "GET"), ("/", "GET")]

/-- The health route body (app.py line 102). -/
def health_check : String := "API is running successfully."

/-! Concrete payloads used by counterexamples and witnesses. -/

/-- The spec's worked example: pair "A", price "1.5", liquidity 6000, volume 100. -/
def exA : Listing :=
  { pairAddress := some (JVal.str "A"), priceUsd := some (JVal.str "1.5"),
    liquidity := some (SubObj.dict [("usd", JVal.num 6000)]),
    volume := some (SubObj.dict [("h24", JVal.num 100)]), pairCreatedAt := none }

/-- A listing with pair address "A" and liquidity 1000, below the threshold. -/
def lowA : Listing :=
  { pairAddress := some (JVal.str "A"), priceUsd := some (JVal.str "1.0"),
    liquidity := some (SubObj.dict [("usd", JVal.num 1000)]),
    volume := some (SubObj.dict [("h24", JVal.num 10)]), pairCreatedAt := none }

/-- A second listing with the same pair address "A" but liquidity 6000. -/
def highA : Listing :=
  { pairAddress := some (JVal.str "A"), priceUsd := some (JVal.str "2.0"),
    liquidity := some (SubObj.dict [("usd", JVal.num 6000)]),
    volume := some (SubObj.dict [("h24", JVal.num 20)]), pairCreatedAt := none }

/-- A payload in which two listings share the pair address "A". -/
def rawDup : List Listing := [lowA, highA]

/-- A listing whose priceUsd does not parse as a number but whose liquidity
passes the threshold. -/
def exBadPrice : Listing :=
  { pairAddress := some (JVal.str "BP"), priceUsd := some (JVal.str "abc"),
    liquidity := some (SubObj.dict [("usd", JVal.num 6000)]),
    volume := some (SubObj.dict [("h24", JVal.num 5)]), pairCreatedAt := none }

/-- A listing whose nested liquidity value does not parse as a number, so
the coerced liquidity cell is NaN. -/
def exNanLiq : Listing :=
  { pairAddress := some (JVal.str "NL"), priceUsd := some (JVal.str "3"),
    liquidity := some (SubObj.dict [("usd", JVal.str "xyz")]),
    volume := some (SubObj.dict [("h24", JVal.num 5)]), pairCreatedAt := none }

/-- Payload combining the bad-price and NaN-liquidity listings. -/
def raw3 : List Listing := [exBadPrice, exNanLiq]

/-- A successful upstream response carrying the worked example. -/
def okResp : UpstreamResponse := { status := 200, pairs := some [exA] }

/-- A listing lacking only the `priceUsd` key. -/
def noPricePair : Listing :=
  { pairAddress := some (JVal.str "P"), priceUsd := none,
    liquidity := some (SubObj.dict [("usd", JVal.num 6000)]),
    volume := some (SubObj.dict [("h24", JVal.num 1)]), pairCreatedAt := none }

/-- A listing lacking only the `liquidity` key. -/
def noLiqPair : Listing :=
  { pairAddress := some (JVal.str "P"), priceUsd := some (JVal.str "1"),
    liquidity := none,
    volume := some (SubObj.dict [("h24", JVal.num 1)]), pairCreatedAt := none }

/-- A listing lacking only the `volume` key. -/
def noVolPair : Listing :=
  { pairAddress := some (JVal.str "P"), priceUsd := some (JVal.str "1"),
    liquidity := some (SubObj.dict [("usd", JVal.num 6000)]),
    volume := none, pairCreatedAt := none }

/-- A listing lacking only the `pairAddress` key. -/
def noAddrPair : Listing :=
  { pairAddress := none, priceUsd := some (JVal.str "1"),
    liquidity := some (SubObj.dict [("usd", JVal.num 6000)]),
    volume := some (SubObj.dict [("h24", JVal.num 1)]), pairCreatedAt := none }

/-! Helper lemmas shared by the claim theorems. -/

/-- On success, `filter_data` returns exactly the liquidity-filtered rows of
the payload, in payload order. -/
theorem filter_data_ok_eq (raw : List Listing) (now : Nat) (rows : List Row)
    (h : filter_data raw now = Except.ok rows) :
    rows = (raw.map (mkRow now)).filter fun r => pnumGt r.liquidity 5000 := by
  unfold filter_data at h
  repeat' split at h
  all_goals simp_all

/-- C1 counterexample: in the payload `rawDup`, the listing `lowA` has pair
address "A" and coerced liquidity 1000 ≤ 5000, yet the output of
`filter_data` contains a row with pair address "A" (coming from the other
listing `highA`, which shares the address).  So the claim as stated — the
output contains no row with that object's identifier — is false. -/
theorem low_liquidity_identifier_still_present :
    lowA ∈ rawDup ∧
    subVal "usd" lowA.liquidity = PNum.num 1000 ∧
    (1000 : ℚ) ≤ 5000 ∧
    filter_data rawDup 7 = Except.ok [mkRow 7 highA] ∧
    (mkRow 7 highA).pairAddress = lowA.pairAddress := by
  refine ⟨by decide, by decide, by norm_num, rfl, by decide⟩

/-- C1 (amended): if every listing bearing a given pair address has coerced
liquidity ≤ 5000 (i.e. fails the strict `liquidity > 5000` predicate), then
the output of `filter_data` contains no row with that pair address.  In
particular a single low-liquidity listing contributes no row; only a
distinct listing sharing the address and passing the threshold can make the
address appear. -/
theorem filter_excludes_low_liquidity
    (raw : List Listing) (now : Nat) (rows : List Row) (a : Option JVal)
    (hall : ∀ l ∈ raw, l.pairAddress = a →
      pnumGt (subVal "usd" l.liquidity) 5000 = false)
    (hrun : filter_data raw now = Except.ok rows) :
    ∀ r ∈ rows, r.pairAddress ≠ a := by
  have hE := filter_data_ok_eq raw now rows hrun
  subst hE
  intro r hr hpa
  rw [List.mem_filter] at hr
  obtain ⟨hm, hp⟩ := hr
  rw [List.mem_map] at hm
  obtain ⟨l, hl, rfl⟩ := hm
  have h2 : pnumGt (subVal "usd" l.liquidity) 5000 = true := hp
  rw [hall l hl hpa] at h2
  exact Bool.false_ne_true h2

/-- Witness for C1 (amended): with the single-listing payload `[lowA]` the
hypotheses hold and the (empty) output has no row with address "A". -/
theorem filter_excludes_low_liquidity_witness :
    (∀ l ∈ [lowA], l.pairAddress = some (JVal.str "A") →
      pnumGt (subVal "usd" l.liquidity) 5000 = false) ∧
    filter_data [lowA] 7 = Except.ok [] ∧
    ∀ r ∈ ([] : List Row), r.pairAddress ≠ some (JVal.str "A") :=
  ⟨by decide, rfl, filter_excludes_low_liquidity [lowA] 7 [] (some (JVal.str "A"))
    (by decide) rfl⟩

/-- C2: every listing whose coerced nested liquidity passes the strict
threshold contributes a row to the output of `filter_data`, carrying its
pair address, the numeric parse of its `priceUsd` string as price, the
coerced `liquidity.usd` value, and the coerced `volume.h24` value. -/
theorem filter_keeps_high_liquidity
    (raw : List Listing) (now : Nat) (rows : List Row) (l : Listing)
    (hmem : l ∈ raw)
    (hliq : pnumGt (subVal "usd" l.liquidity) 5000 = true)
    (hrun : filter_data raw now = Except.ok rows) :
    ∃ r ∈ rows, r.pairAddress = l.pairAddress ∧
      r.price = priceVal l ∧
      r.liquidity = subVal "usd" l.liquidity ∧
      r.volume = subVal "h24" l.volume ∧
      ∀ s q, l.priceUsd = some (JVal.str s) → parseDecimal s = some q →
        r.price = PNum.num q := by
  have hE := filter_data_ok_eq raw now rows hrun
  subst hE
  refine ⟨mkRow now l, ?_, rfl, rfl, rfl, rfl, ?_⟩
  · rw [List.mem_filter]
    exact ⟨List.mem_map_of_mem (mkRow now) hmem, hliq⟩
  · intro s q h1 h2
    simp [mkRow, priceVal, h1, toNumericVal, h2]

/-- Witness for C2, at the spec's worked example: payload `[exA]` with
priceUsd "1.5", liquidity 6000, volume 100 yields exactly one row with
price 3/2, liquidity 6000, volume 100. -/
theorem filter_keeps_high_liquidity_witness :
    (∃ r ∈ [mkRow 1 exA], r.pairAddress = exA.pairAddress ∧
      r.price = priceVal exA ∧
      r.liquidity = subVal "usd" exA.liquidity ∧
      r.volume = subVal "h24" exA.volume ∧
      ∀ s q, exA.priceUsd = some (JVal.str s) → parseDecimal s = some q →
        r.price = PNum.num q) ∧
    filter_data [exA] 1 = Except.ok [mkRow 1 exA] ∧
    (mkRow 1 exA).price = PNum.num (3 / 2) ∧
    (mkRow 1 exA).liquidity = PNum.num 6000 ∧
    (mkRow 1 exA).volume = PNum.num 100 := by
  refine ⟨filter_keeps_high_liquidity [exA] 1 [mkRow 1 exA] exA (by decide)
    (by decide) rfl, rfl, ?_, by decide, by decide⟩
  show PNum.num ((1 : ℚ) + 5 / 10 ^ 1) = PNum.num (3 / 2)
  norm_num

/-- C3: coercion failures are sentinels, not errors.  For any listing of a
successfully filtered payload: a `priceUsd` string that fails numeric
parsing coerces to NaN; such a listing still contributes a row (with NaN
price) whenever its liquidity passes the threshold; and a listing whose
coerced liquidity is NaN never contributes a row, because the NaN
comparison `NaN > 5000` is false. -/
theorem coercion_failure_is_sentinel
    (raw : List Listing) (now : Nat) (rows : List Row) (l : Listing)
    (hmem : l ∈ raw) (hrun : filter_data raw now = Except.ok rows) :
    (∀ s, l.priceUsd = some (JVal.str s) → parseDecimal s = none →
      priceVal l = PNum.nan) ∧
    (∀ s, l.priceUsd = some (JVal.str s) → parseDecimal s = none →
      pnumGt (subVal "usd" l.liquidity) 5000 = true →
      mkRow now l ∈ rows ∧ (mkRow now l).price = PNum.nan) ∧
    (subVal "usd" l.liquidity = PNum.nan → mkRow now l ∉ rows) ∧
    pnumGt PNum.nan 5000 = false := by
  have hE := filter_data_ok_eq raw now rows hrun
  subst hE
  refine ⟨?_, ?_, ?_, rfl⟩
  · intro s h1 h2
    simp [priceVal, h1, toNumericVal, h2]
  · intro s h1 h2 hliq
    constructor
    · rw [List.mem_filter]
      exact ⟨List.mem_map_of_mem (mkRow now) hmem, hliq⟩
    · show priceVal l = PNum.nan
      simp [priceVal, h1, toNumericVal, h2]
  · intro hnan hmem2
    rw [List.mem_filter] at hmem2
    have h2 : pnumGt (subVal "usd" l.liquidity) 5000 = true := hmem2.2
    rw [hnan] at h2
    exact Bool.false_ne_true h2

/-- Witness for C3: in the payload `raw3`, the listing with unparsable
priceUsd "abc" and liquidity 6000 survives with NaN price, while the
listing whose liquidity coerces to NaN is dropped. -/
theorem coercion_failure_is_sentinel_witness :
    priceVal exBadPrice = PNum.nan ∧
    (mkRow 2 exBadPrice ∈ [mkRow 2 exBadPrice] ∧
      (mkRow 2 exBadPrice).price = PNum.nan) ∧
    mkRow 2 exNanLiq ∉ [mkRow 2 exBadPrice] := by
  have h1 := coercion_failure_is_sentinel raw3 2 [mkRow 2 exBadPrice] exBadPrice
    (by decide) rfl
  have h2 := coercion_failure_is_sentinel raw3 2 [mkRow 2 exBadPrice] exNanLiq
    (by decide) rfl
  exact ⟨h1.1 "abc" rfl rfl, h1.2.1 "abc" rfl rfl (by decide),
    h2.2.2.1 (by decide)⟩

/-- C4: on a non-success upstream status (4xx/5xx, e.g. 503), or when the
decoded body's `pairs` field is absent or the empty list,
`fetch_data_from_dex` fails, and `/tokens` responds 500 with a JSON object
whose error field is a non-empty string.  The embedding performs exactly
one fetch per request: no retry exists. -/
theorem fetch_failure_yields_500
    (resp : UpstreamResponse) (now : Nat) (dbFail : Option String)
    (h : (400 ≤ resp.status ∧ resp.status < 600) ∨
      resp.pairs = none ∨ resp.pairs = some []) :
    (∃ e, fetch_data_from_dex resp = Except.error e) ∧
    (get_tokens resp now dbFail).status = 500 ∧
    ∃ msg, (get_tokens resp now dbFail).body = RespBody.errObj msg ∧
      msg ≠ "" := by
  by_cases hs : 400 ≤ resp.status ∧ resp.status < 600
  · refine ⟨⟨PyError.requestException, ?_⟩, ?_, ?_⟩ <;>
      simp [fetch_data_from_dex, get_tokens, hs, errorMessageFor]
  · rcases h with h | h | h
    · exact absurd h hs
    · refine ⟨⟨PyError.valueError "No data available for Solana tokens.", ?_⟩, ?_, ?_⟩ <;>
        simp [fetch_data_from_dex, get_tokens, hs, h, errorMessageFor]
    · refine ⟨⟨PyError.valueError "No data available for Solana tokens.", ?_⟩, ?_, ?_⟩ <;>
        simp [fetch_data_from_dex, get_tokens, hs, h, errorMessageFor]

/-- Witness for C4, at status 503: the endpoint answers 500 with the
non-empty fetch-failure message. -/
theorem fetch_failure_yields_500_witness :
    (∃ e, fetch_data_from_dex { status := 503, pairs := some [exA] } =
      Except.error e) ∧
    (get_tokens { status := 503, pairs := some [exA] } 0 none).status = 500 ∧
    ∃ msg, (get_tokens { status := 503, pairs := some [exA] } 0 none).body =
      RespBody.errObj msg ∧ msg ≠ "" :=
  fetch_failure_yields_500 { status := 503, pairs := some [exA] } 0 none
    (Or.inl (by norm_num))

/-- C5 counterexample: a database failure during `save_to_database` is
caught by the handler's generic except clause, and the 500 body carries the
fixed message "An unexpected error occurred." — not the raw error text; the
response is even independent of that text.  This refutes the claim that the
error propagates uncaught with the body reflecting the raw exception
text. -/
theorem db_error_text_not_reflected :
    get_tokens okResp 5 (some "connection refused by database") =
      { status := 500, body := RespBody.errObj "An unexpected error occurred." } ∧
    "An unexpected error occurred." ≠ "connection refused by database" ∧
    get_tokens okResp 5 (some "connection refused by database") =
      get_tokens okResp 5 (some "some entirely different error text") :=
  ⟨rfl, by decide, rfl⟩

/-- C5 (amended): when fetch and filter succeed and the database write
raises, the handler's generic except clause catches the exception and
`/tokens` responds 500 with the fixed body "An unexpected error occurred.",
whatever the exception's text was. -/
theorem db_error_caught_generic
    (resp : UpstreamResponse) (now : Nat) (msg : String)
    (raw : List Listing) (rows : List Row)
    (hf : fetch_data_from_dex resp = Except.ok raw)
    (hfd : filter_data raw now = Except.ok rows) :
    get_tokens resp now (some msg) =
      { status := 500, body := RespBody.errObj "An unexpected error occurred." } := by
  simp [get_tokens, hf, hfd, errorMessageFor]

/-- Witness for C5 (amended), on the worked-example payload with a db
failure "boom". -/
theorem db_error_caught_generic_witness :
    get_tokens okResp 5 (some "boom") =
      { status := 500, body := RespBody.errObj "An unexpected error occurred." } :=
  db_error_caught_generic okResp 5 "boom" [exA] [mkRow 5 exA] rfl rfl

/-- C6 counterexample: the registered route table holds exactly `/tokens`
and `/`; no pattern extends `/tokens/` with a path parameter, so no
chain-parameterized route `GET /tokens/chain_id` exists. -/
theorem no_chain_parameterized_route :
    routePatterns = [("/tokens", "GET"), ("/", "GET")] ∧
    (routePatterns.all fun pr => pr.1.toList.take 8 != "/tokens/".toList) = true :=
  ⟨rfl, by decide⟩

/-- C6 (amended): the HTTP surface has no chain-parameterized route; its
only routes are GET `/tokens` (fixed to the Solana endpoint) and GET `/`.
The `/tokens` handler answers either 200 with a JSON array of rows or 500
with a JSON error object. -/
theorem http_surface_fixed_routes :
    routePatterns = [("/tokens", "GET"), ("/", "GET")] ∧
    ∀ (resp : UpstreamResponse) (now : Nat) (dbFail : Option String),
      ((get_tokens resp now dbFail).status = 200 ∧
        ∃ rs, (get_tokens resp now dbFail).body = RespBody.rows rs) ∨
      ((get_tokens resp now dbFail).status = 500 ∧
        ∃ m, (get_tokens resp now dbFail).body = RespBody.errObj m) := by
  refine ⟨rfl, ?_⟩
  intro resp now dbFail
  rcases hf : fetch_data_from_dex resp with e | raw
  · right
    constructor <;> simp [get_tokens, hf]
  · rcases hfd : filter_data raw now with e | rows
    · right
      constructor <;> simp [get_tokens, hf, hfd]
    · rcases dbFail with _ | m
      · left
        constructor <;> simp [get_tokens, hf, hfd]
      · right
        constructor <;> simp [get_tokens, hf, hfd]

/-- C7: filtering is stable.  On success the output of `filter_data` is
exactly the upstream list filtered by the liquidity predicate, in the
upstream order, with each survivor projected to the row columns
(pairAddress, price, liquidity, volume, created_at) by `mkRow`. -/
theorem filter_is_stable
    (raw : List Listing) (now : Nat) (rows : List Row)
    (hrun : filter_data raw now = Except.ok rows) :
    rows = (raw.filter fun l => pnumGt (subVal "usd" l.liquidity) 5000).map
      (mkRow now) := by
  rw [filter_data_ok_eq raw now rows hrun, List.filter_map]
  rfl

/-- Witness for C7: a three-listing payload whose first and third listings
survive, in that order. -/
theorem filter_is_stable_witness :
    filter_data [exA, lowA, highA] 4 = Except.ok [mkRow 4 exA, mkRow 4 highA] ∧
    [mkRow 4 exA, mkRow 4 highA] =
      (([exA, lowA, highA].filter fun l =>
        pnumGt (subVal "usd" l.liquidity) 5000).map (mkRow 4)) :=
  ⟨rfl, filter_is_stable [exA, lowA, highA] 4 [mkRow 4 exA, mkRow 4 highA] rfl⟩

/-- C8: every output row's created_at is the processing-time stamp `now`
taken during filtering; an upstream-supplied timestamp field is ignored
(rewriting it in every listing leaves `filter_data` unchanged); and no
3-day recency window exists — survival is decided by the liquidity
predicate alone. -/
theorem created_at_is_processing_time
    (raw : List Listing) (now : Nat) (rows : List Row)
    (f : Listing → Option JVal)
    (hrun : filter_data raw now = Except.ok rows) :
    (∀ r ∈ rows, r.created_at = now) ∧
    filter_data (raw.map fun l => { l with pairCreatedAt := f l }) now =
      filter_data raw now ∧
    rows = (raw.filter fun l => pnumGt (subVal "usd" l.liquidity) 5000).map
      (mkRow now) := by
  have hE := filter_data_ok_eq raw now rows hrun
  refine ⟨?_, ?_, ?_⟩
  · subst hE
    intro r hr
    rw [List.mem_filter] at hr
    rw [List.mem_map] at hr
    obtain ⟨⟨l, _, rfl⟩, _⟩ := hr
    rfl
  · simp only [filter_data, List.any_map, List.map_map]
    rfl
  · rw [hE, List.filter_map]
    rfl

/-- Witness for C8, on the worked-example payload with the upstream
timestamp field rewritten to an arbitrary constant. -/
theorem created_at_is_processing_time_witness :
    (∀ r ∈ [mkRow 9 exA], r.created_at = 9) ∧
    filter_data ([exA].map fun l => { l with pairCreatedAt := some (JVal.num 123) }) 9 =
      filter_data [exA] 9 ∧
    [mkRow 9 exA] =
      (([exA].filter fun l => pnumGt (subVal "usd" l.liquidity) 5000).map
        (mkRow 9)) :=
  created_at_is_processing_time [exA] 9 [mkRow 9 exA]
    (fun _ => some (JVal.num 123)) rfl

/-- C9: payloads the fetch step accepts can still make `filter_data` raise.
For each expected key (priceUsd, liquidity, volume, pairAddress), a
non-empty `pairs` list in which no listing has that key makes `filter_data`
raise a `KeyError`, and `/tokens` answers 500 with the generic body. -/
theorem missing_key_raises_unexpected :
    filter_data [noPricePair] 0 = Except.error (PyError.keyError "priceUsd") ∧
    get_tokens { status := 200, pairs := some [noPricePair] } 0 none =
      { status := 500, body := RespBody.errObj "An unexpected error occurred." } ∧
    filter_data [noLiqPair] 0 = Except.error (PyError.keyError "liquidity") ∧
    get_tokens { status := 200, pairs := some [noLiqPair] } 0 none =
      { status := 500, body := RespBody.errObj "An unexpected error occurred." } ∧
    filter_data [noVolPair] 0 = Except.error (PyError.keyError "volume") ∧
    get_tokens { status := 200, pairs := some [noVolPair] } 0 none =
      { status := 500, body := RespBody.errObj "An unexpected error occurred." } ∧
    filter_data [noAddrPair] 0 = Except.error (PyError.keyError "pairAddress") ∧
    get_tokens { status := 200, pairs := some [noAddrPair] } 0 none =
      { status := 500, body := RespBody.errObj "An unexpected error occurred." } :=
  ⟨rfl, rfl, rfl, rfl, rfl, rfl, rfl, rfl⟩

/-- C10: the handler is total over the modelled failures, every error body
carries one of exactly three fixed strings, the error status is always 500,
and the response never depends on the text of a database exception. -/
theorem handler_messages_are_fixed
    (resp : UpstreamResponse) (now : Nat) (dbFail : Option String) (m : String)
    (h : (get_tokens resp now dbFail).body = RespBody.errObj m) :
    (m = "Failed to fetch data from DEX Screener API." ∨
      m = "No valid data available for Solana tokens." ∨
      m = "An unexpected error occurred.") ∧
    (get_tokens resp now dbFail).status = 500 ∧
    ∀ a b : String, get_tokens resp now (some a) = get_tokens resp now (some b) := by
  have key : ∀ e : PyError,
      errorMessageFor e = "Failed to fetch data from DEX Screener API." ∨
      errorMessageFor e = "No valid data available for Solana tokens." ∨
      errorMessageFor e = "An unexpected error occurred." := by
    intro e
    cases e <;> simp [errorMessageFor]
  rcases hf : fetch_data_from_dex resp with e | raw
  · simp only [get_tokens, hf] at h
    rw [RespBody.errObj.injEq] at h
    subst h
    refine ⟨key e, ?_, ?_⟩ <;> simp [get_tokens, hf]
  · rcases hfd : filter_data raw now with e | rows
    · simp only [get_tokens, hf, hfd] at h
      rw [RespBody.errObj.injEq] at h
      subst h
      refine ⟨key e, ?_, ?_⟩ <;> simp [get_tokens, hf, hfd]
    · rcases dbFail with _ | d
      · simp only [get_tokens, hf, hfd] at h
        exact absurd h (by simp)
      · simp only [get_tokens, hf, hfd] at h
        rw [RespBody.errObj.injEq] at h
        subst h
        refine ⟨key (PyError.dbError d), ?_, ?_⟩ <;>
          simp [get_tokens, hf, hfd, errorMessageFor]

/-- Witness for C10, at an upstream 503: the body is the fetch-failure
string and the status is 500. -/
theorem handler_messages_are_fixed_witness :
    ("Failed to fetch data from DEX Screener API." =
        "Failed to fetch data from DEX Screener API." ∨
      "Failed to fetch data from DEX Screener API." =
        "No valid data available for Solana tokens." ∨
      "Failed to fetch data from DEX Screener API." =
        "An unexpected error occurred.") ∧
    (get_tokens { status := 503, pairs := some [exA] } 0 none).status = 500 ∧
    ∀ a b : String,
      get_tokens { status := 503, pairs := some [exA] } 0 (some a) =
        get_tokens { status := 503, pairs := some [exA] } 0 (some b) :=
  handler_messages_are_fixed { status := 503, pairs := some [exA] } 0 none
    "Failed to fetch data from DEX Screener API." rfl

end DexBackend
